import Mathlib

/-!
Verification of the liquefaction-analysis core (CPT/SPT normalization
solvers, resistance pipelines, DMT/Vs/clay closed forms, CSR estimator)
against its natural-language specification.

The Python modules are embedded shallowly over `ℝ`:

* Python float division `a / b` raises `ZeroDivisionError` for `b = 0`;
  it is modelled by `pyDiv`, which returns `none` exactly on that input.
* Python float power `a ** b` raises on `0 ** negative`, and for a
  negative base with non-integer exponent it produces a complex number
  that makes the very next float comparison in these modules raise a
  `TypeError`; both outcomes are modelled by `pyPow` returning `none`.
  For every other input `pyPow` agrees with `Real.rpow` (for a negative
  base and integer exponent, `Real.rpow` agrees with the signed power
  Python computes).
* `np.exp`, `np.log`, `math.sqrt`, `math.sin` are modelled by
  `Real.exp`, `Real.log`, `Real.sqrt`, `Real.sin`; inside these modules
  they are only reached with arguments in the domain on which the
  Python functions return a float.
* A `run ()` invocation is modelled as a function from an input record
  to `Option` of an output record; `none` means the invocation produced
  no numeric result (an uncaught exception, or an explicit
  `st.stop()` / early `return` halt — each definition's comment says
  which applies).

Streamlit display calls are ignored except where they can raise: the
CPT/SPT modules format the normalized index with `f"{x:.4f}"`, which
raises `TypeError` when the loop never ran and the index is still
`None`; the embeddings return `none` in that case.
-/

noncomputable section
open scoped Classical

/-- Python float division: `ZeroDivisionError` (`none`) iff the divisor is `0`. -/
def pyDiv (a b : ℝ) : Option ℝ :=
  if b = 0 then none else some (a / b)

/-- Python float power: `none` when `0.0 ** negative` raises, or when a
negative base with a non-integer exponent yields a complex value (which
the surrounding code immediately crashes on); otherwise `Real.rpow`. -/
def pyPow (b e : ℝ) : Option ℝ :=
  if b < 0 ∧ ∀ n : ℤ, e ≠ (n : ℝ) then none
  else if b = 0 ∧ e < 0 then none
  else some (b ^ e)

/-! ## CPT module (`crr_cpt.py`, direct-FC branch) -/

/-- Inputs of `crr_cpt.run` (the `use_direct_FC` branch, where the fines
content is supplied directly).  `MSF_max_user = some v` models the
"Provide MSF_max manually?" checkbox being ticked with value `v`. -/
structure CptIn where
  qt : ℝ
  sigma_vc : ℝ
  sigma_v0 : ℝ
  Pa : ℝ
  FC : ℝ
  M : ℝ
  init_m : ℝ
  tol : ℝ
  max_iter : ℕ
  MSF_max_user : Option ℝ

/-- Result of the iterative solver: final `m`, final normalized index
(`none` iff the loop body never completed an iteration), reported
iteration count, convergence flag. -/
structure SolverResult where
  m : ℝ
  idx : Option ℝ
  iter_count : ℕ
  converged : Bool

/-- `delta_qc1N_formula` from `crr_cpt.py`:
`(11.9 + qc1N/14.6) * exp(1.63 - 9.7/(FC+2) - (15.7/(FC+2))**2)`;
crashes (`none`) iff `FC + 2 = 0`. -/
def delta_qc1N_formula (qc1N FC : ℝ) : Option ℝ :=
  match pyDiv 9.7 (FC + 2.0) with
  | none => none
  | some t1 =>
    match pyDiv 15.7 (FC + 2.0) with
    | none => none
    | some t2 => some ((11.9 + qc1N / 14.6) * Real.exp (1.63 - t1 - t2 ^ (2 : ℕ)))

/-- `compute_m_from_qc1Ncs` from `crr_cpt.py`: `1.338 - 0.249 * q ** 0.264`. -/
def compute_m_from_qc1Ncs (q : ℝ) : Option ℝ :=
  match pyPow q 0.264 with
  | none => none
  | some p => some (1.338 - 0.249 * p)

/-- The capped normalization factor of one CPT iteration:
`CN = (Pa/sigma_vc) ** m`, then `if CN > 1.7: CN = 1.7`. -/
def cptCN (i : CptIn) (m : ℝ) : Option ℝ :=
  match pyDiv i.Pa i.sigma_vc with
  | none => none
  | some r =>
    match pyPow r m with
    | none => none
    | some CN1 => some (if 1.7 < CN1 then 1.7 else CN1)

/-- One iteration of the CPT loop body: from the current `m`, the new
`(m, qc1Ncs)` pair (after the `1e-6` floor and the `[0.246, 0.782]`
clamp), or `none` if the body raises. -/
def cptStep (i : CptIn) (qCN m : ℝ) : Option (ℝ × ℝ) :=
  match cptCN i m with
  | none => none
  | some CN =>
    let qc1N := CN * qCN
    match delta_qc1N_formula qc1N i.FC with
    | none => none
    | some dq =>
      let raw := qc1N + dq
      let q_new := if raw < 1e-6 then 1e-6 else raw
      match compute_m_from_qc1Ncs q_new with
      | none => none
      | some mr =>
        let m1 := if mr < 0.246 then 0.246 else mr
        let m2 := if 0.782 < m1 then 0.782 else m1
        some (m2, q_new)

/-- The CPT `for it in range(int(max_iter))` loop.  `fuel` is the number
of iterations left, `it` the 0-based index of the next iteration, `m`,
`idx`, `last_m` the loop variables.  Exhausting the loop returns the
`for`-`else` result (`converged = False`, `iter_count = max_iter`). -/
def cptLoop (i : CptIn) (qCN : ℝ) :
    ℕ → ℕ → ℝ → Option ℝ → Option ℝ → Option SolverResult
  | 0, _, m, idx, _ => some ⟨m, idx, i.max_iter, false⟩
  | fuel + 1, it, m, _idx, last_m =>
    match cptStep i qCN m with
    | none => none
    | some (m_new, q_new) =>
      match last_m with
      | some lm =>
        if |m_new - lm| < i.tol then some ⟨m_new, some q_new, it + 1, true⟩
        else cptLoop i qCN fuel (it + 1) m_new (some q_new) (some m_new)
      | none => cptLoop i qCN fuel (it + 1) m_new (some q_new) (some m_new)

/-- The CPT iterative solver: `qCN = qt / Pa` (raises iff `Pa = 0`),
then the loop from `m = init_m`, `last_m = None`. -/
def cptSolver (i : CptIn) : Option SolverResult :=
  match pyDiv i.qt i.Pa with
  | none => none
  | some qCN => cptLoop i qCN i.max_iter 0 i.init_m none none

/-- Output record of `crr_cpt.run`. -/
structure CptOut where
  m : ℝ
  qc1Ncs : ℝ
  iter_count : ℕ
  converged : Bool
  CRR_base : ℝ
  msf_max_cpt : ℝ
  MSF_max : ℝ
  MSF : ℝ
  C_sigma : ℝ
  K_sigma : ℝ
  CRR : ℝ

/-- The deterministic CPT resistance pipeline that `crr_cpt.run`
executes after the solver: `CRR_base`, `MSF_max` (the CPT expression
capped at `2.2`, unless the manual value is provided, which is used as
given), `MSF`, `C_sigma` (fallback `0.3` on a non-positive denominator,
else capped at `0.3`), `K_sigma` (`1.0` when `sigma_v0 ≤ 0`, else
`1 - C_sigma * log(sigma_vc/Pa)` capped at `1.1`), and finally
`CRR = CRR_base * MSF * K_sigma`.  The `sigma_vc / Pa` division here
may use total real division: `cptRun` only reaches this pipeline after
the solver's own `qt / Pa` division succeeded, so `Pa ≠ 0` on every
reachable call. -/
def cptPost (i : CptIn) (s : SolverResult) (qc : ℝ) : CptOut :=
  let CRR_base := Real.exp (qc / 113.0 + (qc / 1000.0) ^ (2 : ℕ)
    - (qc / 140.0) ^ (3 : ℕ) + (qc / 137.0) ^ (4 : ℕ) - 2.8)
  let msf_max_cpt := min (1.09 * (qc / 180.0) ^ (3 : ℕ)) 2.2
  let MSF_max := match i.MSF_max_user with
    | some v => v
    | none => msf_max_cpt
  let MSF := 1.0 + (MSF_max - 1.0) * (8.64 * Real.exp (-0.25 * i.M) - 1.325)
  let den := 37.3 - 8.27 * qc ^ (0.264 : ℝ)
  let C_sigma := if den ≤ 0 then 0.3 else min (1.0 / den) 0.3
  let K_sigma := if i.sigma_v0 ≤ 0 then 1.0
    else min (1.0 - C_sigma * Real.log (i.sigma_vc / i.Pa)) 1.1
  ⟨s.m, qc, s.iter_count, s.converged, CRR_base, msf_max_cpt,
    MSF_max, MSF, C_sigma, K_sigma, CRR_base * MSF * K_sigma⟩

/-- `crr_cpt.run`: solver, then display of the solver outcome (which
raises when `qc1Ncs` is still `None`), then the resistance pipeline. -/
def cptRun (i : CptIn) : Option CptOut :=
  match cptSolver i with
  | none => none
  | some s =>
    match s.idx with
    | none => none
    | some qc => some (cptPost i s qc)

/-! ## SPT module (`crr_spt.py`, direct-FC branch) -/

/-- Inputs of `crr_spt.run` (the `use_direct_FC` branch). -/
structure SptIn where
  N60 : ℝ
  sigma_vc : ℝ
  sigma_v0 : ℝ
  Pa : ℝ
  FC : ℝ
  M : ℝ
  init_m : ℝ
  tol : ℝ
  max_iter : ℕ
  MSF_max_user : Option ℝ

/-- The capped normalization factor of one SPT iteration:
`CN = (Pa/sigma_vc) ** m if sigma_vc > 0 else 1.0`, then the `1.7` cap. -/
def sptCN (i : SptIn) (m : ℝ) : Option ℝ :=
  match (if 0 < i.sigma_vc then pyPow (i.Pa / i.sigma_vc) m else some 1.0) with
  | none => none
  | some CN1 => some (if 1.7 < CN1 then 1.7 else CN1)

/-- One iteration of the SPT loop body.  The fines correction is
`exp(1.63 + 9.7/(FC+0.01) - (15.7/(FC+0.01))**2)`, defined as `0.0`
when `FC + 0.01 ≤ 0`. -/
def sptStep (i : SptIn) (m : ℝ) : Option (ℝ × ℝ) :=
  match sptCN i m with
  | none => none
  | some CN =>
    let N1_60 := CN * i.N60
    let den := i.FC + 0.01
    let delta := if den ≤ 0 then 0.0
      else Real.exp (1.63 + 9.7 / den - (15.7 / den) ^ (2 : ℕ))
    let raw := N1_60 + delta
    let n_new := if raw < 1e-6 then 1e-6 else raw
    let mr := 0.784 - 0.0768 * Real.sqrt n_new
    let m1 := if mr < 0.246 then 0.246 else mr
    let m2 := if 0.782 < m1 then 0.782 else m1
    some (m2, n_new)

/-- The SPT iteration loop; identical control flow to `cptLoop`. -/
def sptLoop (i : SptIn) :
    ℕ → ℕ → ℝ → Option ℝ → Option ℝ → Option SolverResult
  | 0, _, m, idx, _ => some ⟨m, idx, i.max_iter, false⟩
  | fuel + 1, it, m, _idx, last_m =>
    match sptStep i m with
    | none => none
    | some (m_new, n_new) =>
      match last_m with
      | some lm =>
        if |m_new - lm| < i.tol then some ⟨m_new, some n_new, it + 1, true⟩
        else sptLoop i fuel (it + 1) m_new (some n_new) (some m_new)
      | none => sptLoop i fuel (it + 1) m_new (some n_new) (some m_new)

/-- The SPT iterative solver (no computation precedes the loop). -/
def sptSolver (i : SptIn) : Option SolverResult :=
  sptLoop i i.max_iter 0 i.init_m none none

/-- Output record of `crr_spt.run`. -/
structure SptOut where
  m : ℝ
  N1_60cs : ℝ
  iter_count : ℕ
  converged : Bool
  CRR_base : ℝ
  msf_max_spt : ℝ
  MSF_max : ℝ
  MSF : ℝ
  C_sigma : ℝ
  K_sigma : ℝ
  CRR : ℝ

/-- The SPT resistance pipeline executed after the solver.  Note that
`K_sigma` uses `log(sigma_v0 / Pa)` (the CPT module uses
`sigma_vc / Pa` there), and that this division is a plain unguarded
Python division: when `sigma_v0 > 0` and `Pa = 0` it raises an uncaught
`ZeroDivisionError` (modelled with `pyDiv`), unlike the CPT pipeline,
which can only be reached with `Pa ≠ 0` because its solver divides
`qt / Pa` first. -/
def sptPost (i : SptIn) (s : SolverResult) (N : ℝ) : Option SptOut :=
  let CRR_base := Real.exp (-2.8 + N / 14.1 + (N / 126.0) ^ (2 : ℕ)
    - (N / 23.6) ^ (3 : ℕ) + (N / 25.4) ^ (4 : ℕ))
  let msf_max_spt := min (1.09 * (N / 31.5) ^ (2 : ℕ)) 2.2
  let MSF_max := match i.MSF_max_user with
    | some v => v
    | none => msf_max_spt
  let MSF := 1.0 + (MSF_max - 1.0) * (8.64 * Real.exp (-0.25 * i.M) - 1.325)
  let den_c := 18.9 - 2.55 * Real.sqrt N
  let C_sigma := if den_c ≤ 0 then 0.3 else min (1.0 / den_c) 0.3
  match (if i.sigma_v0 ≤ 0 then some (1.0 : ℝ)
         else (pyDiv i.sigma_v0 i.Pa).map
           (fun r => min (1.0 - C_sigma * Real.log r) 1.1)) with
  | none => none
  | some K_sigma =>
    some ⟨s.m, N, s.iter_count, s.converged, CRR_base, msf_max_spt,
      MSF_max, MSF, C_sigma, K_sigma, CRR_base * MSF * K_sigma⟩

/-- `crr_spt.run`: solver, display (raises when the index is `None`),
then the resistance pipeline. -/
def sptRun (i : SptIn) : Option SptOut :=
  match sptSolver i with
  | none => none
  | some s =>
    match s.idx with
    | none => none
    | some N => sptPost i s N

/-! ## DMT module (`crr_dmt.py`) -/

/-- Inputs of `crr_vs.run`. -/
structure VsIn where
  Vs : ℝ
  sigma_v0 : ℝ
  Pa : ℝ
  FC : ℝ
  M : ℝ
  MSF : ℝ
  K_sigma : ℝ

/-- Output record of `crr_vs.run`. -/
structure VsOut where
  Vs1 : ℝ
  Vs1_star : ℝ
  CRR_base : ℝ
  CRR : ℝ

/-- `crr_vs.run`: `Vs1 = (Pa/sigma_v0)**0.25 * Vs` when `sigma_v0 > 0`
(else `Vs`); `Vs1_star` from the fines content; the piecewise
`CRR_base` with `a = 0.022`, `b = 2.8`; `CRR = CRR_base * MSF * K_sigma`.
`none` models the power raising for a negative `Pa/sigma_v0`. -/
def vsRun (i : VsIn) : Option VsOut :=
  match (if 0 < i.sigma_v0 then (pyPow (i.Pa / i.sigma_v0) 0.25).map (· * i.Vs)
         else some i.Vs) with
  | none => none
  | some Vs1 =>
    let Vs1_star := if i.FC < 5.0 then 200.0 + 15.0 * ((35.0 - i.FC) / 30.0) else 215.0
    let CRR_base := if 0 < Vs1 ∧ Vs1 < Vs1_star then
        0.022 * (Vs1 / 100.0) ^ (2 : ℕ)
          + 2.8 * (1.0 / (Vs1_star - Vs1) - 1.0 / Vs1_star)
      else 0.022 * (Vs1 / 100.0) ^ (2 : ℕ)
    some ⟨Vs1, Vs1_star, CRR_base, CRR_base * i.MSF * i.K_sigma⟩

/-! ## Clay / plastic-silt module (`crr_clay.py`) -/

/-- The specification's canonical CPT scenario: `qt = 150`,
`sigma_vc = sigma_v0 = 100`, `Pa = 101.325`, `FC = 5`, `M = 7.5`,
`init_m = 0.6`, `tol = 1e-4`; the iteration budget and the manual-MSF
choice are parameters. -/
def cptCanon (mi : ℕ) (ov : Option ℝ) : CptIn :=
  { qt := 150, sigma_vc := 100, sigma_v0 := 100, Pa := 101.325, FC := 5,
    M := 7.5, init_m := 0.6, tol := 1e-4, max_iter := mi, MSF_max_user := ov }


/-! ## Concrete inputs used in the analysis -/

/-- A CPT input inside the ranges of the convergence claim
(`qt = 150 ∈ [50, 400]`, all stresses positive, `tol = 1e-4`,
`max_iter = 200`, `init_m = 0.6`) whose fines content is `-2`. -/
def cptC1In : CptIn :=
  { qt := 150, sigma_vc := 100, sigma_v0 := 100, Pa := 101.325, FC := -2,
    M := 7.5, init_m := 0.6, tol := 1e-4, max_iter := 200, MSF_max_user := none }

/-- Default solver result, used to name concrete solver outcomes. -/
def defaultRes : SolverResult := ⟨0, none, 0, false⟩

/-- The solver outcome of the canonical CPT scenario. -/
def cptCanonRes : SolverResult := (cptSolver (cptCanon 200 none)).getD defaultRes

lemma pyDiv_of_ne {b : ℝ} (a : ℝ) (h : b ≠ 0) : pyDiv a b = some (a / b) := by
  simp [pyDiv, h]

lemma pyDiv_zero (a : ℝ) : pyDiv a 0 = none := by
  simp [pyDiv]

lemma pyPow_of_pos {b : ℝ} (h : 0 < b) (e : ℝ) : pyPow b e = some (b ^ e) := by
  have h1 : ¬(b < 0 ∧ ∀ n : ℤ, e ≠ (n : ℝ)) := fun hc => absurd h (not_lt.2 hc.1.le)
  have h2 : ¬(b = 0 ∧ e < 0) := fun hc => absurd hc.1 (ne_of_gt h)
  simp [pyPow, h1, h2]

/-- Sequentially applying the two clamp tests of the solvers keeps the
result inside `[0.246, 0.782]`. -/
lemma clamp_range (mr : ℝ) :
    0.246 ≤ (if 0.782 < (if mr < 0.246 then (0.246 : ℝ) else mr) then (0.782 : ℝ)
             else (if mr < 0.246 then (0.246 : ℝ) else mr)) ∧
    (if 0.782 < (if mr < 0.246 then (0.246 : ℝ) else mr) then (0.782 : ℝ)
     else (if mr < 0.246 then (0.246 : ℝ) else mr)) ≤ 0.782 := by
  constructor <;> split_ifs <;> norm_num <;> linarith

/-- The `1e-6` floor of the solvers yields a positive value. -/
lemma floor_pos (raw : ℝ) : (0 : ℝ) < if raw < 1e-6 then (1e-6 : ℝ) else raw := by
  split_ifs with h
  · norm_num
  · norm_num at h ⊢
    linarith

/-! ## CPT loop lemmas -/

lemma cptStep_m_range {i : CptIn} {qCN m : ℝ} {p : ℝ × ℝ}
    (h : cptStep i qCN m = some p) : 0.246 ≤ p.1 ∧ p.1 ≤ 0.782 := by
  simp only [cptStep] at h
  split at h
  · exact absurd h (by simp)
  · split at h
    · exact absurd h (by simp)
    · split at h
      · exact absurd h (by simp)
      · rw [Option.some.injEq] at h
        subst h
        constructor <;> dsimp only <;> split_ifs <;> norm_num <;> linarith

lemma cptStep_idx_pos {i : CptIn} {qCN m : ℝ} {p : ℝ × ℝ}
    (h : cptStep i qCN m = some p) : (0 : ℝ) < p.2 := by
  simp only [cptStep] at h
  split at h
  · exact absurd h (by simp)
  · split at h
    · exact absurd h (by simp)
    · split at h
      · exact absurd h (by simp)
      · rw [Option.some.injEq] at h
        subst h
        dsimp only
        split_ifs with hr
        · norm_num
        · norm_num at hr ⊢; linarith

lemma cptLoop_zero (i : CptIn) (qCN : ℝ) (it : ℕ) (m : ℝ) (idx lm : Option ℝ) :
    cptLoop i qCN 0 it m idx lm = some ⟨m, idx, i.max_iter, false⟩ := rfl

lemma cptLoop_succ (i : CptIn) (qCN : ℝ) (fuel it : ℕ) (m : ℝ) (idx lm : Option ℝ) :
    cptLoop i qCN (fuel + 1) it m idx lm =
      (match cptStep i qCN m with
       | none => none
       | some (m_new, q_new) =>
         match lm with
         | some l =>
           if |m_new - l| < i.tol then some ⟨m_new, some q_new, it + 1, true⟩
           else cptLoop i qCN fuel (it + 1) m_new (some q_new) (some m_new)
         | none => cptLoop i qCN fuel (it + 1) m_new (some q_new) (some m_new)) := rfl

/-- Whenever the loop runs at least one iteration and returns, the final
`m` is inside the clamp interval. -/
lemma cptLoop_m_range {i : CptIn} {qCN : ℝ} :
    ∀ fuel it m idx lm s, cptLoop i qCN (fuel + 1) it m idx lm = some s →
      0.246 ≤ s.m ∧ s.m ≤ 0.782 := by
  intro fuel
  induction fuel with
  | zero =>
    intro it m idx lm s h
    rw [cptLoop_succ] at h
    split at h
    · exact absurd h (by simp)
    · rename_i p hp
      have hm := cptStep_m_range hp
      split at h
      · split at h
        · rw [Option.some.injEq] at h; subst h; exact hm
        · rw [cptLoop_zero, Option.some.injEq] at h; subst h; exact hm
      · rw [cptLoop_zero, Option.some.injEq] at h; subst h; exact hm
  | succ n ih =>
    intro it m idx lm s h
    rw [cptLoop_succ] at h
    split at h
    · exact absurd h (by simp)
    · rename_i p hp
      have hm := cptStep_m_range hp
      split at h
      · split at h
        · rw [Option.some.injEq] at h; subst h; exact hm
        · exact ih _ _ _ _ _ h
      · exact ih _ _ _ _ _ h

/-- The reported iteration count never exceeds `max_iter`. -/
lemma cptLoop_iter_le {i : CptIn} {qCN : ℝ} :
    ∀ fuel it m idx lm s, fuel + it ≤ i.max_iter →
      cptLoop i qCN fuel it m idx lm = some s → s.iter_count ≤ i.max_iter := by
  intro fuel
  induction fuel with
  | zero =>
    intro it m idx lm s _ h
    rw [cptLoop_zero, Option.some.injEq] at h
    subst h
    exact le_rfl
  | succ n ih =>
    intro it m idx lm s hle h
    rw [cptLoop_succ] at h
    split at h
    · exact absurd h (by simp)
    · split at h
      · split at h
        · rw [Option.some.injEq] at h; subst h; simp; omega
        · exact ih _ _ _ _ _ (by omega) h
      · exact ih _ _ _ _ _ (by omega) h

lemma sptStep_m_range {i : SptIn} {m : ℝ} {p : ℝ × ℝ}
    (h : sptStep i m = some p) : 0.246 ≤ p.1 ∧ p.1 ≤ 0.782 := by
  simp only [sptStep] at h
  split at h
  · exact absurd h (by simp)
  · rw [Option.some.injEq] at h
    subst h
    exact clamp_range _

lemma sptStep_idx_pos {i : SptIn} {m : ℝ} {p : ℝ × ℝ}
    (h : sptStep i m = some p) : (0 : ℝ) < p.2 := by
  simp only [sptStep] at h
  split at h
  · exact absurd h (by simp)
  · rw [Option.some.injEq] at h
    subst h
    exact floor_pos _

lemma sptLoop_zero (i : SptIn) (it : ℕ) (m : ℝ) (idx lm : Option ℝ) :
    sptLoop i 0 it m idx lm = some ⟨m, idx, i.max_iter, false⟩ := rfl

lemma sptLoop_succ (i : SptIn) (fuel it : ℕ) (m : ℝ) (idx lm : Option ℝ) :
    sptLoop i (fuel + 1) it m idx lm =
      (match sptStep i m with
       | none => none
       | some (m_new, n_new) =>
         match lm with
         | some l =>
           if |m_new - l| < i.tol then some ⟨m_new, some n_new, it + 1, true⟩
           else sptLoop i fuel (it + 1) m_new (some n_new) (some m_new)
         | none => sptLoop i fuel (it + 1) m_new (some n_new) (some m_new)) := rfl

lemma sptLoop_m_range {i : SptIn} :
    ∀ fuel it m idx lm s, sptLoop i (fuel + 1) it m idx lm = some s →
      0.246 ≤ s.m ∧ s.m ≤ 0.782 := by
  intro fuel
  induction fuel with
  | zero =>
    intro it m idx lm s h
    rw [sptLoop_succ] at h
    split at h
    · exact absurd h (by simp)
    · rename_i p hp
      have hm := sptStep_m_range hp
      split at h
      · split at h
        · rw [Option.some.injEq] at h; subst h; exact hm
        · rw [sptLoop_zero, Option.some.injEq] at h; subst h; exact hm
      · rw [sptLoop_zero, Option.some.injEq] at h; subst h; exact hm
  | succ n ih =>
    intro it m idx lm s h
    rw [sptLoop_succ] at h
    split at h
    · exact absurd h (by simp)
    · rename_i p hp
      have hm := sptStep_m_range hp
      split at h
      · split at h
        · rw [Option.some.injEq] at h; subst h; exact hm
        · exact ih _ _ _ _ _ h
      · exact ih _ _ _ _ _ h

lemma sptLoop_iter_le {i : SptIn} :
    ∀ fuel it m idx lm s, fuel + it ≤ i.max_iter →
      sptLoop i fuel it m idx lm = some s → s.iter_count ≤ i.max_iter := by
  intro fuel
  induction fuel with
  | zero =>
    intro it m idx lm s _ h
    rw [sptLoop_zero, Option.some.injEq] at h
    subst h
    exact le_rfl
  | succ n ih =>
    intro it m idx lm s hle h
    rw [sptLoop_succ] at h
    split at h
    · exact absurd h (by simp)
    · split at h
      · split at h
        · rw [Option.some.injEq] at h; subst h; simp; omega
        · exact ih _ _ _ _ _ (by omega) h
      · exact ih _ _ _ _ _ (by omega) h

lemma cptCN_eval {i : CptIn} {m r : ℝ} (hr : pyDiv i.Pa i.sigma_vc = some r)
    (hpos : 0 < r) (h17 : ¬(1.7 < r ^ m)) : cptCN i m = some (r ^ m) := by
  simp only [cptCN, hr, pyPow_of_pos hpos, if_neg h17]

lemma delta_eval {FC : ℝ} (qc1N : ℝ) (hFC : FC + 2.0 ≠ 0) :
    delta_qc1N_formula qc1N FC =
      some ((11.9 + qc1N / 14.6) *
        Real.exp (1.63 - 9.7 / (FC + 2.0) - (15.7 / (FC + 2.0)) ^ (2 : ℕ))) := by
  simp only [delta_qc1N_formula, pyDiv_of_ne _ hFC]

lemma delta_none {FC : ℝ} (qc1N : ℝ) (hFC : FC + 2.0 = 0) :
    delta_qc1N_formula qc1N FC = none := by
  simp only [delta_qc1N_formula, hFC, pyDiv_zero]

lemma compute_m_eval {q : ℝ} (hq : 0 < q) :
    compute_m_from_qc1Ncs q = some (1.338 - 0.249 * q ^ (0.264 : ℝ)) := by
  simp only [compute_m_from_qc1Ncs, pyPow_of_pos hq]

/-- One CPT iteration, evaluated from pointwise facts about its pieces
(here for the case in which the raw `m` update is clamped from above to
`0.782`). -/
lemma cptStep_eval_top {i : CptIn} {qCN m CN dq : ℝ}
    (hCN : cptCN i m = some CN)
    (hdq : delta_qc1N_formula (CN * qCN) i.FC = some dq)
    (hflr : ¬(CN * qCN + dq < 1e-6))
    (hmr : compute_m_from_qc1Ncs (CN * qCN + dq) =
      some (1.338 - 0.249 * (CN * qCN + dq) ^ (0.264 : ℝ)))
    (h782 : 0.782 < 1.338 - 0.249 * (CN * qCN + dq) ^ (0.264 : ℝ)) :
    cptStep i qCN m = some (0.782, CN * qCN + dq) := by
  have h246 : ¬(1.338 - 0.249 * (CN * qCN + dq) ^ (0.264 : ℝ) < 0.246) := by
    push_neg
    norm_num at h782 ⊢
    linarith
  simp only [cptStep, hCN, if_neg hflr, hdq, hmr, if_neg h246, if_pos h782]

/-- A CPT iteration whose fines-correction raises propagates the raise. -/
lemma cptStep_none_of_delta {i : CptIn} (qCN m : ℝ)
    (h : ∀ q : ℝ, delta_qc1N_formula q i.FC = none) :
    cptStep i qCN m = none := by
  simp only [cptStep]
  cases hCN : cptCN i m with
  | none => rfl
  | some CN => simp only [h]

/-! ## The canonical CPT scenario of the specification -/

set_option maxHeartbeats 1000000 in
/-- On the canonical scenario every iteration started from `m ∈ [0, 1]`
clamps the raw update to `0.782`, because the corrected index stays
below `1.75`. -/
lemma cptCanon_step (mi : ℕ) (ov : Option ℝ) (m : ℝ) (h0 : 0 ≤ m) (h1 : m ≤ 1) :
    ∃ q, cptStep (cptCanon mi ov) (150 / 101.325) m = some (0.782, q) := by
  have hr : pyDiv (cptCanon mi ov).Pa (cptCanon mi ov).sigma_vc =
      some ((101.325 : ℝ) / 100) := by
    rw [show (cptCanon mi ov).Pa = 101.325 from rfl,
      show (cptCanon mi ov).sigma_vc = 100 from rfl,
      pyDiv_of_ne _ (by norm_num : (100 : ℝ) ≠ 0)]
  have hCNub : ((101.325 : ℝ) / 100) ^ m ≤ 101.325 / 100 := by
    have h := Real.rpow_le_rpow_of_exponent_le
      (by norm_num : (1 : ℝ) ≤ 101.325 / 100) h1
    rwa [Real.rpow_one] at h
  have hCNlb : (1 : ℝ) ≤ ((101.325 : ℝ) / 100) ^ m := by
    have h := Real.rpow_le_rpow_of_exponent_le
      (by norm_num : (1 : ℝ) ≤ 101.325 / 100) h0
    rwa [Real.rpow_zero] at h
  have h17 : ¬((1.7 : ℝ) < ((101.325 : ℝ) / 100) ^ m) := by
    push_neg
    have h := hCNub
    norm_num at h ⊢
    linarith
  have hCN := cptCN_eval hr (by norm_num) h17
  have hq1lb : (1 : ℝ) ≤ ((101.325 : ℝ) / 100) ^ m * (150 / 101.325) := by
    have h := mul_le_mul_of_nonneg_right hCNlb
      (by norm_num : (0 : ℝ) ≤ 150 / 101.325)
    rw [one_mul] at h
    have h2 := hCNlb
    norm_num at h ⊢
    linarith
  have hq1ub : ((101.325 : ℝ) / 100) ^ m * (150 / 101.325) ≤ 1.5 := by
    have h := mul_le_mul_of_nonneg_right hCNub
      (by norm_num : (0 : ℝ) ≤ 150 / 101.325)
    norm_num at h ⊢
    linarith
  have hdq := @delta_eval (cptCanon mi ov).FC
    (((101.325 : ℝ) / 100) ^ m * (150 / 101.325))
    (by rw [show (cptCanon mi ov).FC = 5 from rfl]; norm_num)
  rw [show (cptCanon mi ov).FC = 5 from rfl] at hdq
  have hexp_pos : (0 : ℝ) <
      Real.exp (1.63 - 9.7 / ((5 : ℝ) + 2.0) - (15.7 / ((5 : ℝ) + 2.0)) ^ (2 : ℕ)) :=
    Real.exp_pos _
  have h4 : (53 : ℝ) ≤ Real.exp 4 := by
    have he : Real.exp 4 = Real.exp 1 ^ (4 : ℕ) := by
      rw [← Real.exp_nat_mul]
      norm_num
    have hb := Real.exp_one_gt_d9
    have hp : (2.7182818283 : ℝ) ^ (4 : ℕ) ≤ Real.exp 1 ^ (4 : ℕ) :=
      pow_le_pow_left₀ (by norm_num) hb.le 4
    rw [he]
    calc (53 : ℝ) ≤ (2.7182818283 : ℝ) ^ (4 : ℕ) := by norm_num
      _ ≤ Real.exp 1 ^ (4 : ℕ) := hp
  have hexp_ub :
      Real.exp (1.63 - 9.7 / ((5 : ℝ) + 2.0) - (15.7 / ((5 : ℝ) + 2.0)) ^ (2 : ℕ))
        ≤ 0.019 := by
    calc Real.exp (1.63 - 9.7 / ((5 : ℝ) + 2.0) - (15.7 / ((5 : ℝ) + 2.0)) ^ (2 : ℕ))
        ≤ Real.exp (-4) := Real.exp_le_exp.2 (by norm_num)
      _ = (Real.exp 4)⁻¹ := by rw [← Real.exp_neg]
      _ ≤ 53⁻¹ := by
          apply inv_anti₀ (by norm_num) h4
      _ ≤ 0.019 := by norm_num
  have hfac_lb : (0 : ℝ) <
      11.9 + ((101.325 : ℝ) / 100) ^ m * (150 / 101.325) / 14.6 := by
    have h := hq1lb
    norm_num at h ⊢
    linarith
  have hfac_ub : 11.9 + ((101.325 : ℝ) / 100) ^ m * (150 / 101.325) / 14.6
      ≤ 11.9 + 1.5 / 14.6 := by
    have h := hq1ub
    norm_num at h ⊢
    linarith
  have hdq_pos : (0 : ℝ) <
      (11.9 + ((101.325 : ℝ) / 100) ^ m * (150 / 101.325) / 14.6) *
        Real.exp (1.63 - 9.7 / ((5 : ℝ) + 2.0) - (15.7 / ((5 : ℝ) + 2.0)) ^ (2 : ℕ)) :=
    mul_pos hfac_lb hexp_pos
  have hdq_ub :
      (11.9 + ((101.325 : ℝ) / 100) ^ m * (150 / 101.325) / 14.6) *
        Real.exp (1.63 - 9.7 / ((5 : ℝ) + 2.0) - (15.7 / ((5 : ℝ) + 2.0)) ^ (2 : ℕ))
      ≤ 0.25 := by
    calc (11.9 + ((101.325 : ℝ) / 100) ^ m * (150 / 101.325) / 14.6) *
          Real.exp (1.63 - 9.7 / ((5 : ℝ) + 2.0) - (15.7 / ((5 : ℝ) + 2.0)) ^ (2 : ℕ))
        ≤ (11.9 + 1.5 / 14.6) * 0.019 :=
          mul_le_mul hfac_ub hexp_ub (le_of_lt hexp_pos) (by norm_num)
      _ ≤ 0.25 := by norm_num
  have hx_lb : (1 : ℝ) ≤ ((101.325 : ℝ) / 100) ^ m * (150 / 101.325) +
      (11.9 + ((101.325 : ℝ) / 100) ^ m * (150 / 101.325) / 14.6) *
        Real.exp (1.63 - 9.7 / ((5 : ℝ) + 2.0) - (15.7 / ((5 : ℝ) + 2.0)) ^ (2 : ℕ)) := by
    linarith
  have hx_ub : ((101.325 : ℝ) / 100) ^ m * (150 / 101.325) +
      (11.9 + ((101.325 : ℝ) / 100) ^ m * (150 / 101.325) / 14.6) *
        Real.exp (1.63 - 9.7 / ((5 : ℝ) + 2.0) - (15.7 / ((5 : ℝ) + 2.0)) ^ (2 : ℕ))
      ≤ 1.75 := by
    have h1 := hq1ub
    have h2 := hdq_ub
    norm_num at h1 h2 ⊢
    linarith
  have hflr : ¬(((101.325 : ℝ) / 100) ^ m * (150 / 101.325) +
      (11.9 + ((101.325 : ℝ) / 100) ^ m * (150 / 101.325) / 14.6) *
        Real.exp (1.63 - 9.7 / ((5 : ℝ) + 2.0) - (15.7 / ((5 : ℝ) + 2.0)) ^ (2 : ℕ))
      < 1e-6) := by
    push_neg
    have h := hx_lb
    norm_num at h ⊢
    linarith
  have hxpos : (0 : ℝ) < ((101.325 : ℝ) / 100) ^ m * (150 / 101.325) +
      (11.9 + ((101.325 : ℝ) / 100) ^ m * (150 / 101.325) / 14.6) *
        Real.exp (1.63 - 9.7 / ((5 : ℝ) + 2.0) - (15.7 / ((5 : ℝ) + 2.0)) ^ (2 : ℕ)) := by
    linarith
  have hmr := compute_m_eval hxpos
  have hpow_le : (((101.325 : ℝ) / 100) ^ m * (150 / 101.325) +
      (11.9 + ((101.325 : ℝ) / 100) ^ m * (150 / 101.325) / 14.6) *
        Real.exp (1.63 - 9.7 / ((5 : ℝ) + 2.0) - (15.7 / ((5 : ℝ) + 2.0)) ^ (2 : ℕ)))
        ^ (0.264 : ℝ)
      ≤ Real.sqrt (((101.325 : ℝ) / 100) ^ m * (150 / 101.325) +
        (11.9 + ((101.325 : ℝ) / 100) ^ m * (150 / 101.325) / 14.6) *
          Real.exp (1.63 - 9.7 / ((5 : ℝ) + 2.0) - (15.7 / ((5 : ℝ) + 2.0)) ^ (2 : ℕ))) := by
    rw [Real.sqrt_eq_rpow]
    exact Real.rpow_le_rpow_of_exponent_le hx_lb (by norm_num)
  have hsqrt_lt : Real.sqrt (((101.325 : ℝ) / 100) ^ m * (150 / 101.325) +
      (11.9 + ((101.325 : ℝ) / 100) ^ m * (150 / 101.325) / 14.6) *
        Real.exp (1.63 - 9.7 / ((5 : ℝ) + 2.0) - (15.7 / ((5 : ℝ) + 2.0)) ^ (2 : ℕ)))
      < 1.33 := by
    refine (Real.sqrt_lt' (by norm_num)).2 ?_
    have h := hx_ub
    norm_num at h ⊢
    linarith
  have h782 : (0.782 : ℝ) < 1.338 - 0.249 *
      (((101.325 : ℝ) / 100) ^ m * (150 / 101.325) +
        (11.9 + ((101.325 : ℝ) / 100) ^ m * (150 / 101.325) / 14.6) *
          Real.exp (1.63 - 9.7 / ((5 : ℝ) + 2.0) - (15.7 / ((5 : ℝ) + 2.0)) ^ (2 : ℕ)))
        ^ (0.264 : ℝ) := by
    have h1 := hpow_le
    have h2 := hsqrt_lt
    norm_num at h1 h2 ⊢
    linarith
  exact ⟨_, cptStep_eval_top hCN hdq hflr hmr h782⟩

/-- With 200 allowed iterations the canonical CPT scenario converges at
the second iteration, with `m = 0.782` (both iterations clamp the raw
update to `0.782`, so the convergence test compares equal values). -/
lemma cptCanon_solver (ov : Option ℝ) :
    ∃ q, cptSolver (cptCanon 200 ov) = some ⟨0.782, some q, 2, true⟩ := by
  obtain ⟨q1, h1⟩ := cptCanon_step 200 ov 0.6 (by norm_num) (by norm_num)
  obtain ⟨q2, h2⟩ := cptCanon_step 200 ov 0.782 (by norm_num) (by norm_num)
  refine ⟨q2, ?_⟩
  have hq : pyDiv (cptCanon 200 ov).qt (cptCanon 200 ov).Pa =
      some ((150 : ℝ) / 101.325) := by
    rw [show (cptCanon 200 ov).qt = 150 from rfl,
      show (cptCanon 200 ov).Pa = 101.325 from rfl,
      pyDiv_of_ne _ (by norm_num : (101.325 : ℝ) ≠ 0)]
  simp only [cptSolver, hq]
  rw [show (cptCanon 200 ov).max_iter = 200 from rfl,
    show (cptCanon 200 ov).init_m = 0.6 from rfl,
    show (200 : ℕ) = 199 + 1 by norm_num, cptLoop_succ]
  simp only [h1]
  rw [show (199 : ℕ) = 198 + 1 by norm_num, cptLoop_succ]
  simp only [h2, sub_self, abs_zero]
  rw [if_pos (show (0 : ℝ) < (cptCanon 200 ov).tol from by norm_num [cptCanon])]

/-! ## Crash lemmas for the CPT path -/

/-- With `FC = -2` and at least one iteration, the CPT solver crashes
(uncaught `ZeroDivisionError` in `delta_qc1N_formula`). -/
lemma cptSolver_none_FC {i : CptIn} (hFC : i.FC + 2.0 = 0)
    (hit : 1 ≤ i.max_iter) : cptSolver i = none := by
  obtain ⟨k, hk⟩ : ∃ k, i.max_iter = k + 1 := ⟨i.max_iter - 1, by omega⟩
  simp only [cptSolver]
  cases hq : pyDiv i.qt i.Pa with
  | none => rfl
  | some qCN =>
    have hl : cptLoop i qCN i.max_iter 0 i.init_m none none = none := by
      rw [hk, cptLoop_succ,
        cptStep_none_of_delta qCN i.init_m (fun q => delta_none q hFC)]
    exact hl

lemma cptRun_none_of_solver {i : CptIn} (h : cptSolver i = none) :
    cptRun i = none := by
  simp only [cptRun, h]

lemma sptRun_none_of_solver {i : SptIn} (h : sptSolver i = none) :
    sptRun i = none := by
  simp only [sptRun, h]

lemma cptCanonRes_spec :
    cptSolver (cptCanon 200 none) = some cptCanonRes ∧
    cptCanonRes.m = 0.782 ∧ cptCanonRes.iter_count = 2 ∧
    cptCanonRes.converged = true ∧ cptCanonRes.idx.isSome = true := by
  obtain ⟨q, h⟩ := cptCanon_solver none
  have hres : cptCanonRes = ⟨0.782, some q, 2, true⟩ := by
    rw [cptCanonRes, h]
    rfl
  exact ⟨by rw [h, hres], by rw [hres], by rw [hres], by rw [hres], by rw [hres]; rfl⟩

/-- C1 (counterexample): the claim quantifies over every CPT solver
input with `qt ∈ [50, 400]`, all stresses strictly positive,
`tolerance = 1e-4`, `max_iterations = 200` and `initial m = 0.6`, and
asserts the solver returns `converged = true`.  The input `cptC1In`
satisfies all of those constraints (its fines content is `-2`), and on
it the solver crashes with a division by zero in the fines-correction
term and returns nothing at all, in particular not `converged = true`. -/
theorem C1_counterexample : cptRun cptC1In = none := by
  apply cptRun_none_of_solver
  apply cptSolver_none_FC
  · rw [show cptC1In.FC = -2 from rfl]
    norm_num
  · rw [show cptC1In.max_iter = 200 from rfl]
    norm_num

/-- C1 (amended): the fixed-point solvers always terminate — the
reported iteration count never exceeds `max_iterations`, and whenever at
least one iteration is allowed the returned `m` lies in
`[0.246, 0.782]`; and the specification's canonical CPT scenario
(`qt = 150`, `sigma_vc = sigma_v0 = 100`, `Pa = 101.325`, `FC = 5`,
`tol = 1e-4`, `max_iter = 200`, `init_m = 0.6`) does return
`converged = true`, in 2 iterations, with `m = 0.782`.  Universal
convergence over the whole claimed input ranges does not hold. -/
theorem C1_solver_bounds :
    (∀ (i : CptIn) (s : SolverResult), cptSolver i = some s →
        s.iter_count ≤ i.max_iter) ∧
    (∀ (i : CptIn) (s : SolverResult), 1 ≤ i.max_iter → cptSolver i = some s →
        0.246 ≤ s.m ∧ s.m ≤ 0.782) ∧
    (∀ (i : SptIn) (s : SolverResult), sptSolver i = some s →
        s.iter_count ≤ i.max_iter) ∧
    (∀ (i : SptIn) (s : SolverResult), 1 ≤ i.max_iter → sptSolver i = some s →
        0.246 ≤ s.m ∧ s.m ≤ 0.782) ∧
    ((cptSolver (cptCanon 200 none)).map
        (fun s => (s.m, s.iter_count, s.converged)) = some (0.782, 2, true)) := by
  refine ⟨?_, ?_, ?_, ?_, ?_⟩
  · intro i s hs
    simp only [cptSolver] at hs
    split at hs
    · exact absurd hs (by simp)
    · exact cptLoop_iter_le _ _ _ _ _ _ (by omega) hs
  · intro i s hit hs
    obtain ⟨k, hk⟩ : ∃ k, i.max_iter = k + 1 := ⟨i.max_iter - 1, by omega⟩
    simp only [cptSolver] at hs
    split at hs
    · exact absurd hs (by simp)
    · rw [hk] at hs
      exact cptLoop_m_range _ _ _ _ _ _ hs
  · intro i s hs
    simp only [sptSolver] at hs
    exact sptLoop_iter_le _ _ _ _ _ _ (by omega) hs
  · intro i s hit hs
    obtain ⟨k, hk⟩ : ∃ k, i.max_iter = k + 1 := ⟨i.max_iter - 1, by omega⟩
    simp only [sptSolver] at hs
    rw [hk] at hs
    exact sptLoop_m_range _ _ _ _ _ _ hs
  · obtain ⟨q, h⟩ := cptCanon_solver none
    rw [h]
    rfl

/-- C1 (witness): the amended statement applied to the canonical CPT
scenario and its named solver outcome. -/
theorem C1_witness :
    cptSolver (cptCanon 200 none) = some cptCanonRes ∧
    1 ≤ (cptCanon 200 none).max_iter ∧
    cptCanonRes.iter_count ≤ (cptCanon 200 none).max_iter ∧
    0.246 ≤ cptCanonRes.m ∧ cptCanonRes.m ≤ 0.782 := by
  obtain ⟨hs, _, _, _, _⟩ := cptCanonRes_spec
  have hit : 1 ≤ (cptCanon 200 none).max_iter := by norm_num [cptCanon]
  exact ⟨hs, hit, C1_solver_bounds.1 _ _ hs,
    (C1_solver_bounds.2.1 _ _ hit hs).1, (C1_solver_bounds.2.1 _ _ hit hs).2⟩

end
